import Mathlib

/-!
Verification of the Fair Bucket Splitter (src/static/js/splitter.js).

The JavaScript source is shallowly embedded: JS numbers that are kept in
unsigned-32-bit range by `>>> 0` become `Nat` with explicit `% 4294967296`;
`localStorage` becomes an explicit two-field record `St` threaded through the
stateful operations, together with a `fail : Bool` flag modelling a throwing
store; the environment capabilities (GeoIP provider, `navigator.userAgent`,
`TextEncoder`, `crypto.subtle.digest`, `DataView`, `crypto.getRandomValues`,
`Math.random`) become explicit fields of environment records, `Option`-valued
where the capability can throw or be unavailable.
-/

namespace Splitter

/-- `const EXACT_MIDDLE_POINT = 2147483648; // 2^31` (splitter.js line 24). -/
def EXACT_MIDDLE_POINT : Nat := 2147483648

/-- The two persisted localStorage fields: key `fair_bucket` and key
`fair_bucket_manual`.  `none` models an absent key (`getItem` returns null). -/
structure St where
  bucket : Option String
  manual : Option String
deriving DecidableEq, Repr

/-- `getSavedBucket()` (lines 66-73): reads the `fair_bucket` key; on a store
failure the catch-branch returns null, modelled by `none` when `fail`. -/
def getSavedBucket (fail : Bool) (st : St) : Option String :=
  if fail then none else st.bucket

/-- `saveBucket(bucketName)` (lines 79-85): writes the `fair_bucket` key; a
store failure makes the write a logged no-op. -/
def saveBucket (fail : Bool) (bucketName : String) (st : St) : St :=
  if fail then st else { st with bucket := some bucketName }

/-- `isManualOverride()` (lines 91-97): true iff the `fair_bucket_manual` key
holds the literal string "true"; false on store failure. -/
def isManualOverride (fail : Bool) (st : St) : Bool :=
  if fail then false else st.manual = some "true"

/-- `setManualOverride(isManual)` (lines 103-113): true writes the marker
string "true", false removes the key; store failures are logged no-ops. -/
def setManualOverride (fail : Bool) (isManual : Bool) (st : St) : St :=
  if fail then st
  else if isManual then { st with manual := some "true" }
  else { st with manual := none }

/-- The midpoint threshold `score >= EXACT_MIDDLE_POINT ? "A" : "B"`, the
expression appearing verbatim at lines 47 and 154 (the spec's Bucket Mapper). -/
def bucketOf (score : Nat) : String :=
  if EXACT_MIDDLE_POINT ≤ score then "A" else "B"

/- ===================== UTF-8 encoding and its manual fallback ============ -/

/-- Standard UTF-8 encoding of one Unicode scalar value (code point `c`),
as the byte list.  This is both what `TextEncoder().encode` produces per
character and what ECMA-262's `Encode` (inside `encodeURIComponent`) escapes. -/
def utf8EncodeChar (c : Nat) : List Nat :=
  if c < 128 then [c]
  else if c < 2048 then [192 + c / 64, 128 + c % 64]
  else if c < 65536 then [224 + c / 4096, 128 + (c / 64) % 64, 128 + c % 64]
  else [240 + c / 262144, 128 + (c / 4096) % 64, 128 + (c / 64) % 64, 128 + c % 64]

/-- Byte list produced by `new TextEncoder().encode(s)`: standard UTF-8 over
the string's scalar values (a Lean `String` is a list of scalar values, so it
is always a well-formed input). -/
def utf8Encode (l : List Char) : List Nat :=
  match l with
  | [] => []
  | c :: t => utf8EncodeChar c.toNat ++ utf8Encode t

/-- ECMA-262 `uriUnescaped` set used by `encodeURIComponent`: ASCII letters,
decimal digits, and the marks `- _ . ! ~ * ' ( )`; these pass through
unescaped. -/
def isUnreservedURI (c : Char) : Bool :=
  (65 ≤ c.toNat && c.toNat ≤ 90) || (97 ≤ c.toNat && c.toNat ≤ 122) ||
  (48 ≤ c.toNat && c.toNat ≤ 57) ||
  c == '-' || c == '_' || c == '.' || c == '!' || c == '~' || c == '*' ||
  c == '\'' || c == '(' || c == ')'

/-- Uppercase hexadecimal digit character for `n < 16`, as emitted by the
percent-escaping of `encodeURIComponent`. -/
def hexDigit (n : Nat) : Char :=
  if n < 10 then Char.ofNat (48 + n) else Char.ofNat (55 + n)

/-- Percent-escape a byte list: each byte `b` becomes `%`, high hex digit,
low hex digit. -/
def hexEscape : List Nat → List Char
  | [] => []
  | b :: t => '%' :: hexDigit (b / 16) :: hexDigit (b % 16) :: hexEscape t

/-- One character of `encodeURIComponent` output: unreserved characters pass
through; every other code point is replaced by the percent-escapes of its
UTF-8 bytes (ECMA-262 Encode with the `uriUnescaped` set). -/
def escapeChar (c : Char) : List Char :=
  if isUnreservedURI c then [c] else hexEscape (utf8EncodeChar c.toNat)

/-- `encodeURIComponent(str)` modelled from ECMA-262 over the string's
characters. -/
def encodeURIComponent (l : List Char) : List Char :=
  match l with
  | [] => []
  | c :: t => escapeChar c ++ encodeURIComponent t

/-- Numeric value of a hexadecimal digit character, as `parseInt(-, 16)`
assigns it (it accepts both cases; a non-digit would yield NaN, which is
unreachable from `encodeURIComponent` output and modelled as 0). -/
def hexVal (c : Char) : Nat :=
  if 48 ≤ c.toNat ∧ c.toNat ≤ 57 then c.toNat - 48
  else if 65 ≤ c.toNat ∧ c.toNat ≤ 70 then c.toNat - 55
  else if 97 ≤ c.toNat ∧ c.toNat ≤ 102 then c.toNat - 87
  else 0

/-- The scanning loop of `strToUtf8Bytes` (lines 261-269): a `%` consumes the
two following characters as a hex byte via `parseInt(enc.substr(i+1,2), 16)`
and advances by 3; any other character is pushed as `charCodeAt(0)`.  The two
truncated-`%`-at-end arms are unreachable from `encodeURIComponent` output
(`parseInt` on the short substring: one digit parses as itself, the empty
string gives NaN, modelled as 0). -/
def percentDecode : List Char → List Nat
  | [] => []
  | c :: rest =>
    if c = '%' then
      match rest with
      | a :: b :: rest2 => (hexVal a * 16 + hexVal b) :: percentDecode rest2
      | [a] => [hexVal a]
      | [] => [0]
    else c.toNat :: percentDecode rest

/-- `strToUtf8Bytes(str)` (lines 258-271): manual UTF-8 encoding via
`encodeURIComponent` percent escapes. -/
def strToUtf8Bytes (str : String) : List Nat :=
  percentDecode (encodeURIComponent str.data)

/- ===================== FNV-1a and the hash chain ========================= -/

/-- UTF-16 code units of one character, as `charCodeAt` walks a JS string:
BMP scalars are themselves, supplementary code points split into a surrogate
pair. -/
def utf16Char (c : Char) : List Nat :=
  if c.toNat < 65536 then [c.toNat]
  else [55296 + (c.toNat - 65536) / 1024, 56320 + (c.toNat - 65536) % 1024]

/-- UTF-16 code-unit sequence of a character list. -/
def utf16Units : List Char → List Nat
  | [] => []
  | c :: t => utf16Char c ++ utf16Units t

/-- UTF-16 code-unit sequence of a string (`str.charCodeAt(0..length-1)`). -/
def utf16CodeUnits (s : String) : List Nat :=
  utf16Units s.data

/-- One iteration of the `fnv1a32` loop (line 281-282): XOR the code unit in,
then `h = (h + ((h << 1) + (h << 4) + (h << 7) + (h << 8) + (h << 24))) >>> 0`.
JS `<<` wraps at 32 signed bits and `>>> 0` reduces the float sum modulo
2^32; every int32 wrap is congruent modulo 2^32 to the unwrapped product, so
plain `Nat` shifts with one final `% 4294967296` compute the same value. -/
def fnvStep (h c : Nat) : Nat :=
  let hx := h ^^^ c
  (hx + ((hx <<< 1) + (hx <<< 4) + (hx <<< 7) + (hx <<< 8) + (hx <<< 24))) % 4294967296

/-- `fnv1a32(str)` (lines 278-285): offset basis `0x811c9dc5`, folding
`fnvStep` over the UTF-16 code units, with the final `return h >>> 0`. -/
def fnv1a32 (units : List Nat) : Nat :=
  (units.foldl fnvStep 2166136261) % 4294967296

/-- A byte read from an `ArrayBuffer` cell: the buffer stores bytes, hence
the `% 256`; reads past the digest length (impossible for a 32-byte SHA-256
digest) default to 0. -/
def byteAt (l : List Nat) (i : Nat) : Nat :=
  (l.getD i 0) % 256

/-- `new DataView(buffer).getUint32(0, false) >>> 0` (line 226-227): first
four bytes, big-endian. -/
def dataViewGetUint32 (l : List Nat) : Nat :=
  (byteAt l 0 * 16777216 + byteAt l 1 * 65536 + byteAt l 2 * 256 + byteAt l 3) % 4294967296

/-- The catch-branch `(((u8[0] << 24) | (u8[1] << 16) | (u8[2] << 8) | (u8[3])) >>> 0)`
(line 230): the int32 wrap of `u8[0] << 24` is congruent modulo 2^32 to the
plain shift, so `Nat` shifts, bitwise or, and a final `% 4294967296` are the
faithful reading. -/
def manualFourBytes (l : List Nat) : Nat :=
  ((byteAt l 0 <<< 24) ||| (byteAt l 1 <<< 16) ||| (byteAt l 2 <<< 8) ||| byteAt l 3) % 4294967296

/-- Environment of `hashToUint32`: which stages are available and what the
non-deterministic ones return.
* `textEncoderFails`: `new TextEncoder().encode` throws (inner try, line 217-221);
* `digest`: `crypto.subtle.digest("SHA-256", bytes)` — `none` models a throw
  or missing capability, `some buf` the digest's byte buffer;
* `dataViewFails`: the `DataView` read throws, taking the `Uint8Array` branch;
* `fnvFails`: the `fnv1a32` call throws (line 237-241 try);
* `getRandom`: `crypto.getRandomValues` filling a `Uint32Array` — `none`
  models a throw, `some r` the drawn word (`arr[0] >>> 0` keeps it mod 2^32);
* `mathRandom`: the value of `Math.floor(Math.random() * 0x100000000)`. -/
structure HashEnv where
  textEncoderFails : Bool
  digest : List Nat → Option (List Nat)
  dataViewFails : Bool
  fnvFails : Bool
  getRandom : Option Nat
  mathRandom : Nat

/-- `hashToUint32(text)` (lines 211-251): SHA-256 → FNV-1a →
`crypto.getRandomValues` → `Math.random`, each stage attempted only when the
previous one failed, the first success returned immediately. -/
def hashToUint32 (env : HashEnv) (text : String) : Nat :=
  let bytes := if env.textEncoderFails then strToUtf8Bytes text else utf8Encode text.data
  match env.digest bytes with
  | some buf => if env.dataViewFails then manualFourBytes buf else dataViewGetUint32 buf
  | none =>
    if env.fnvFails then
      match env.getRandom with
      | some r => r % 4294967296
      | none => env.mathRandom % 4294967296
    else fnv1a32 (utf16CodeUnits text)

/- ===================== Identity key builder ============================== -/

/-- Environment of the identity-key builder:
* `geoIP`: `some s` is the value `String(data?.ip || "")` produced by a
  successful `getGeoIP()` call (possibly empty); `none` models `getGeoIP`
  missing or throwing (lines 166-175);
* `randomToken`: the value of `Math.random().toString(36).substring(2, 15)`
  drawn by this `getMyIpAddress` call (line 178);
* `userAgent`: `some u` is `String(navigator.userAgent || "")`; `none` models
  the `navigator.userAgent` access throwing (lines 190-196). -/
structure IdEnv where
  geoIP : Option String
  randomToken : String
  userAgent : Option String

/-- The code points `String.prototype.trim` strips (ECMA-262 WhiteSpace and
LineTerminator): TAB, LF, VT, FF, CR, space, NBSP, ZWNBSP, LS, PS (plus the
other Unicode space separators, which never occur in the strings this program
builds). -/
def isJsWhitespace (c : Char) : Bool :=
  c.toNat = 9 || c.toNat = 10 || c.toNat = 11 || c.toNat = 12 || c.toNat = 13 ||
  c.toNat = 32 || c.toNat = 160 || c.toNat = 65279 || c.toNat = 8232 || c.toNat = 8233

/-- `s.trim()`: drop leading and trailing whitespace. -/
def jsTrim (s : String) : String :=
  ⟨((s.data.dropWhile isJsWhitespace).reverse.dropWhile isJsWhitespace).reverse⟩

/-- Simple case mapping of `String.prototype.toLowerCase` on one character
(the ASCII mapping, which is all the identity-key alphabet exercises; Lean's
own `Char.toLower` applies the same shift). -/
def jsLowerChar (c : Char) : Char :=
  if 65 ≤ c.toNat ∧ c.toNat ≤ 90 then Char.ofNat (c.toNat + 32) else c

/-- `s.toLowerCase()`. -/
def jsToLower (s : String) : String :=
  ⟨s.data.map jsLowerChar⟩

/-- `getMyIpAddress()` (lines 165-181): trimmed provider IP when non-empty,
otherwise the `random-` prefixed fallback identifier. -/
def getMyIpAddress (env : IdEnv) : String :=
  match env.geoIP with
  | some s => if jsTrim s ≠ "" then jsTrim s else "random-" ++ env.randomToken
  | none => "random-" ++ env.randomToken

/-- `buildHashInput()` (lines 187-199): `(ip + "|" + ua).trim().toLowerCase()`. -/
def buildHashInput (env : IdEnv) : String :=
  let ip := getMyIpAddress env
  let ua := match env.userAgent with
            | some u => u
            | none => ""
  jsToLower (jsTrim (ip ++ "|" ++ ua))

/- ===================== Orchestrator ====================================== -/

/-- The miss branch of `assignFairBucket()` (lines 45-59): build the key,
hash it, map by the midpoint, `saveBucket`, `setManualOverride(false)`. -/
def assignFresh (idEnv : IdEnv) (hEnv : HashEnv) (fail : Bool) (st : St) : String × St :=
  let key := buildHashInput idEnv
  let score := hashToUint32 hEnv key
  let bucket := bucketOf score
  (bucket, setManualOverride fail false (saveBucket fail bucket st))

/-- `assignFairBucket()` (lines 37-60): `if (existing)` is JS truthiness, so
a present non-empty string is returned unchanged and anything else (absent
key, failed store, or empty string) takes the fresh-assignment branch. -/
def assignFairBucket (idEnv : IdEnv) (hEnv : HashEnv) (fail : Bool) (st : St) : String × St :=
  match getSavedBucket fail st with
  | some e => if e = "" then assignFresh idEnv hEnv fail st else (e, st)
  | none => assignFresh idEnv hEnv fail st

/-- `setFairBucket(bucket)` (lines 119-129): values outside {"A","B"} are
rejected with a `console.error` and an early return (the `Bool` component is
false exactly on that rejection); valid values are saved with the manual
flag set. -/
def setFairBucket (bucket : String) (fail : Bool) (st : St) : St × Bool :=
  if bucket ≠ "A" ∧ bucket ≠ "B" then (st, false)
  else (setManualOverride fail true (saveBucket fail bucket st), true)

/-- `clearFairBucket()` (lines 135-145): remove both keys (a throwing store
leaves them), then reassign. -/
def clearFairBucket (idEnv : IdEnv) (hEnv : HashEnv) (fail : Bool) (st : St) : String × St :=
  let st1 := if fail then st else { bucket := none, manual := none }
  assignFairBucket idEnv hEnv fail st1

/-- `getHashBasedBucket()` (lines 151-155), threaded through the store state
like every orchestrator operation: its body touches no store key, so the
state passes through untouched. -/
def getHashBasedBucket (idEnv : IdEnv) (hEnv : HashEnv) (st : St) : String × St :=
  let key := buildHashInput idEnv
  let score := hashToUint32 hEnv key
  (bucketOf score, st)

/- ===================== Helper lemmas ===================================== -/

/-- Every Lean `Char` is a Unicode scalar value, so its code point is below
0x110000. -/
lemma char_toNat_lt (c : Char) : c.toNat < 1114112 := by
  rcases c.valid with h | ⟨_, h2⟩
  · exact lt_trans h (by norm_num)
  · exact h2

/-- All bytes of the UTF-8 encoding of a code point below 0x110000 are bytes. -/
lemma utf8EncodeChar_lt_256 (c : Nat) (hc : c < 1114112) :
    ∀ b ∈ utf8EncodeChar c, b < 256 := by
  intro b hb
  unfold utf8EncodeChar at hb
  split at hb
  · simp at hb; omega
  · split at hb
    · simp at hb; rcases hb with hb | hb <;> omega
    · split at hb
      · simp at hb; rcases hb with hb | hb | hb <;> omega
      · simp at hb; rcases hb with hb | hb | hb | hb <;> omega

/-- An unreserved character is ASCII below 128 and is not the percent sign. -/
lemma unreserved_lt128_ne37 (c : Char) (h : isUnreservedURI c = true) :
    c.toNat < 128 ∧ c.toNat ≠ 37 := by
  unfold isUnreservedURI at h
  simp only [Bool.or_eq_true, Bool.and_eq_true, decide_eq_true_eq, beq_iff_eq] at h
  rcases h with ((((((((((h | h) | h) | h) | h) | h) | h) | h) | h) | h) | h) | h <;>
    first
      | omega
      | (subst h; decide)

/-- `percentDecode` on a list headed by a non-percent character. -/
lemma percentDecode_cons_ne (c : Char) (hc : ¬ c = '%') (rest : List Char) :
    percentDecode (c :: rest) = c.toNat :: percentDecode rest := by
  conv_lhs => rw [percentDecode.eq_def]
  simp only [if_neg hc]

/-- `percentDecode` consumes a percent triple as one byte. -/
lemma percentDecode_triple (a b : Char) (rest : List Char) :
    percentDecode ('%' :: a :: b :: rest) = (hexVal a * 16 + hexVal b) :: percentDecode rest := by
  conv_lhs => rw [percentDecode.eq_def]
  simp only [if_pos]

/-- `parseInt`'s hex digit value inverts the hex digit formatter below 16. -/
lemma hexVal_hexDigit (n : Nat) (h : n < 16) : hexVal (hexDigit n) = n := by
  interval_cases n <;> decide

/-- Decoding the percent escapes of a byte list recovers the bytes. -/
lemma percentDecode_hexEscape (bs : List Nat) (hb : ∀ b ∈ bs, b < 256) (rest : List Char) :
    percentDecode (hexEscape bs ++ rest) = bs ++ percentDecode rest := by
  induction bs with
  | nil => rfl
  | cons b t ih =>
    have hblt : b < 256 := hb b (by simp)
    have h1 : b / 16 < 16 := by omega
    have h2 : b % 16 < 16 := by omega
    simp only [hexEscape, List.cons_append, percentDecode_triple,
      hexVal_hexDigit _ h1, hexVal_hexDigit _ h2]
    rw [ih (fun x hx => hb x (by simp [hx]))]
    have : b / 16 * 16 + b % 16 = b := by omega
    rw [this]

/-- Decoding one escaped character yields exactly its UTF-8 bytes. -/
lemma percentDecode_escapeChar (c : Char) (rest : List Char) :
    percentDecode (escapeChar c ++ rest) = utf8EncodeChar c.toNat ++ percentDecode rest := by
  unfold escapeChar
  by_cases h : isUnreservedURI c = true
  · rw [if_pos h]
    obtain ⟨h128, h37⟩ := unreserved_lt128_ne37 c h
    have hne : ¬ c = '%' := by
      intro hc
      apply h37
      rw [hc]
      rfl
    rw [List.cons_append, List.nil_append, percentDecode_cons_ne c hne]
    unfold utf8EncodeChar
    rw [if_pos h128]
    rfl
  · rw [if_neg h]
    exact percentDecode_hexEscape _ (utf8EncodeChar_lt_256 _ (char_toNat_lt c)) rest

/-- The full scan of `encodeURIComponent` output reproduces the UTF-8 bytes. -/
lemma percentDecode_encode (l : List Char) :
    percentDecode (encodeURIComponent l) = utf8Encode l := by
  induction l with
  | nil => rfl
  | cons c t ih =>
    show percentDecode (escapeChar c ++ encodeURIComponent t) = _
    rw [percentDecode_escapeChar, ih]
    rfl

/-- The midpoint mapper only produces "A" or "B", never the empty string. -/
lemma bucketOf_ne_empty (score : Nat) : bucketOf score ≠ "" := by
  unfold bucketOf
  split <;> decide

/-- On a functioning store holding a non-empty assignment, `assignFairBucket`
returns it unchanged and leaves the store untouched. -/
lemma assign_existing (i : IdEnv) (h : HashEnv) (st : St) (v : String)
    (hb : st.bucket = some v) (hv : v ≠ "") :
    assignFairBucket i h false st = (v, st) := by
  unfold assignFairBucket getSavedBucket
  simp [hb, hv]

/-- On a functioning store with the assignment key absent or empty,
`assignFairBucket` computes, saves and returns a fresh bucket and clears the
manual flag. -/
lemma assign_fresh_state (i : IdEnv) (h : HashEnv) (st : St)
    (hb : st.bucket = none ∨ st.bucket = some "") :
    assignFairBucket i h false st
      = (bucketOf (hashToUint32 h (buildHashInput i)),
         { bucket := some (bucketOf (hashToUint32 h (buildHashInput i))),
           manual := none }) := by
  cases st
  unfold assignFairBucket getSavedBucket assignFresh saveBucket setManualOverride
  rcases hb with hb | hb <;> simp_all

/- ===================== Claim theorems ==================================== -/

/-- Claim C1: the Bucket Mapper is the pure threshold function: every score
in [0, 2^32-1] at or above 2^31 maps to "A" and every score below 2^31 maps
to "B"; in particular 2147483648 and 4294967295 map to "A", 0 and 2147483647
map to "B". -/
theorem C1_bucket_mapper_threshold :
    (∀ score : Nat, score < 4294967296 →
        (2147483648 ≤ score → bucketOf score = "A") ∧
        (score < 2147483648 → bucketOf score = "B")) ∧
    bucketOf 2147483648 = "A" ∧ bucketOf 4294967295 = "A" ∧
    bucketOf 0 = "B" ∧ bucketOf 2147483647 = "B" := by
  refine ⟨fun score _ => ⟨fun hs => ?_, fun hs => ?_⟩, by decide, by decide, by decide, by decide⟩
  · unfold bucketOf EXACT_MIDDLE_POINT
    rw [if_pos hs]
  · unfold bucketOf EXACT_MIDDLE_POINT
    rw [if_neg (by omega)]

/-- Witness for C1 at the concrete score 3000000000. -/
theorem C1_witness : bucketOf 3000000000 = "A" :=
  (C1_bucket_mapper_threshold.1 3000000000 (by norm_num)).1 (by norm_num)

/-- Claim C2: for every input string and every combination of stage failures
(digest, deterministic fallback, secure random source), the Hash Chain
terminates with an unsigned 32-bit value; being a total Lean function over
all environments, it never fails outward. -/
theorem C2_hash_chain_total_uint32 :
    ∀ (env : HashEnv) (text : String), hashToUint32 env text < 4294967296 := by
  intro env text
  have hmod : ∀ n : Nat, n % 4294967296 < 4294967296 := fun n => Nat.mod_lt _ (by norm_num)
  simp only [hashToUint32]
  split
  · split
    · unfold manualFourBytes
      exact hmod _
    · unfold dataViewGetUint32
      exact hmod _
  · split
    · split
      · exact hmod _
      · exact hmod _
    · unfold fnv1a32
      exact hmod _

/-- Claim C3: `assign()` is idempotent: a present (non-empty) saved value is
returned verbatim with no store write, and two successive calls on a
functioning store return the identical assignment with the second call
writing nothing. -/
theorem C3_assign_idempotent :
    (∀ (st : St) (v : String) (i : IdEnv) (h : HashEnv),
        st.bucket = some v → v ≠ "" → assignFairBucket i h false st = (v, st)) ∧
    (∀ (st : St) (i1 i2 : IdEnv) (h1 h2 : HashEnv),
        assignFairBucket i2 h2 false (assignFairBucket i1 h1 false st).2
          = ((assignFairBucket i1 h1 false st).1,
             (assignFairBucket i1 h1 false st).2)) := by
  constructor
  · intro st v i h hb hv
    exact assign_existing i h st v hb hv
  · intro st i1 i2 h1 h2
    rcases hst : st.bucket with _ | v
    · rw [assign_fresh_state i1 h1 st (Or.inl hst)]
      exact assign_existing i2 h2 _ _ rfl (bucketOf_ne_empty _)
    · by_cases hv : v = ""
      · subst hv
        rw [assign_fresh_state i1 h1 st (Or.inr hst)]
        exact assign_existing i2 h2 _ _ rfl (bucketOf_ne_empty _)
      · rw [assign_existing i1 h1 st v hst hv]
        exact assign_existing i2 h2 st v hst hv

/-- Witness for C3 on a store already holding "A". -/
theorem C3_witness :
    assignFairBucket ⟨some "9.9.9.9", "tok", some "agent"⟩
        ⟨false, fun _ => none, false, false, none, 0⟩ false ⟨some "A", none⟩
      = ("A", ⟨some "A", none⟩) :=
  C3_assign_idempotent.1 ⟨some "A", none⟩ "A" _ _ rfl (by decide)

/-- Claim C4: when the primary digest fails, the Hash Chain returns the
32-bit FNV-1a hash over the input's UTF-16 code units (offset basis
0x811c9dc5, shift-sum update reduced modulo 2^32, which is the
multiply-by-16777619 equivalent); on "1.2.3.4|test-agent" this value is
566215699. -/
theorem C4_fnv_fallback :
    (∀ (env : HashEnv) (text : String),
        env.digest (if env.textEncoderFails then strToUtf8Bytes text
                    else utf8Encode text.data) = none →
        env.fnvFails = false →
        hashToUint32 env text = fnv1a32 (utf16CodeUnits text)) ∧
    (∀ h c : Nat, fnvStep h c = ((h ^^^ c) * 16777619) % 4294967296) ∧
    fnv1a32 (utf16CodeUnits "1.2.3.4|test-agent") = 566215699 := by
  refine ⟨?_, ?_, ?_⟩
  · intro env text hd hf
    simp only [hashToUint32, hd, hf]
    rfl
  · intro h c
    simp only [fnvStep, Nat.shiftLeft_eq]
    norm_num
    omega
  · decide

/-- Witness for C4: an environment whose digest always fails yields the
FNV-1a value on the reference string. -/
theorem C4_witness :
    hashToUint32 ⟨false, fun _ => none, false, false, none, 0⟩ "1.2.3.4|test-agent"
      = 566215699 :=
  (C4_fnv_fallback.1 ⟨false, fun _ => none, false, false, none, 0⟩
      "1.2.3.4|test-agent" rfl rfl).trans C4_fnv_fallback.2.2

/-- Claim C5: after `setFairBucket("A")` succeeds on a functioning store, a
subsequent `assignFairBucket` returns "A" without recomputing (any identity
and hash environment give the same result and leave the store untouched) and
`isManualOverride` is true. -/
theorem C5_manual_override_precedence :
    ∀ (st : St) (i : IdEnv) (h : HashEnv),
      (setFairBucket "A" false st).2 = true ∧
      assignFairBucket i h false (setFairBucket "A" false st).1
        = ("A", (setFairBucket "A" false st).1) ∧
      isManualOverride false (setFairBucket "A" false st).1 = true := by
  intro st i h
  have hset : setFairBucket "A" false st
      = ({ st with bucket := some "A", manual := some "true" }, true) := by
    simp [setFairBucket, saveBucket, setManualOverride]
  rw [hset]
  exact ⟨rfl, assign_existing i h _ "A" rfl (by decide), rfl⟩

/-- Claim C6: `setFairBucket` rejects every value outside {"A","B"} and
mutates nothing, whatever the prior store contents and store health. -/
theorem C6_setManual_rejects_invalid :
    ∀ (bucket : String) (fail : Bool) (st : St),
      bucket ≠ "A" → bucket ≠ "B" → setFairBucket bucket fail st = (st, false) := by
  intro b fail st h1 h2
  unfold setFairBucket
  rw [if_pos ⟨h1, h2⟩]

/-- Witness for C6 at the invalid value "C". -/
theorem C6_witness :
    setFairBucket "C" false ⟨some "A", some "true"⟩ = (⟨some "A", some "true"⟩, false) :=
  C6_setManual_rejects_invalid "C" false ⟨some "A", some "true"⟩ (by decide) (by decide)

/-- Claim C7: `getHashBasedBucket` (peek) neither reads nor writes the two
persisted store fields: the state passes through identically, the result is
the Bucket Mapper applied to the Hash Chain on the identity key, and it does
not depend on the store state. -/
theorem C7_peek_pure :
    ∀ (i : IdEnv) (h : HashEnv) (st st2 : St),
      (getHashBasedBucket i h st).2 = st ∧
      (getHashBasedBucket i h st).1 = bucketOf (hashToUint32 h (buildHashInput i)) ∧
      (getHashBasedBucket i h st).1 = (getHashBasedBucket i h st2).1 :=
  fun _ _ _ _ => ⟨rfl, rfl, rfl⟩

/-- Counterexample to C8 as stated: with the identity provider unavailable,
two identity-key builds drawing different `Math.random` tokens (as two calls
inside one run do, since `getMyIpAddress` draws a fresh token on every call)
produce different identity keys. -/
theorem C8_counterexample :
    buildHashInput ⟨none, "0a", some "ua"⟩ ≠ buildHashInput ⟨none, "1b", some "ua"⟩ := by
  decide

/-- Claim C8 (amended): when the provider is unavailable the identity key is
deterministic in the drawn random token: two builds that draw the same token
(and see the same user agent) produce the same identity key. -/
theorem C8_token_deterministic :
    ∀ (e1 e2 : IdEnv), e1.geoIP = none → e2.geoIP = none →
      e1.randomToken = e2.randomToken → e1.userAgent = e2.userAgent →
      buildHashInput e1 = buildHashInput e2 := by
  intro e1 e2 hg1 hg2 ht hu
  cases e1
  cases e2
  simp_all

/-- Witness for the amended C8 on a concrete unavailable-provider build. -/
theorem C8_witness :
    buildHashInput ⟨none, "tok", some "ua"⟩ = buildHashInput ⟨none, "tok", some "ua"⟩ :=
  C8_token_deterministic ⟨none, "tok", some "ua"⟩ ⟨none, "tok", some "ua"⟩ rfl rfl rfl rfl

/-- Claim C9: the manual encoder `strToUtf8Bytes` (via `encodeURIComponent`
percent escapes) produces exactly the standard UTF-8 byte sequence for every
string, so the primary digest stage hashes the same bytes whether or not the
native `TextEncoder` is available. -/
theorem C9_manual_utf8_encoder_exact :
    (∀ s : String, strToUtf8Bytes s = utf8Encode s.data) ∧
    (∀ (env : HashEnv) (text : String),
        hashToUint32 { env with textEncoderFails := true } text
          = hashToUint32 { env with textEncoderFails := false } text) := by
  have hmain : ∀ s : String, strToUtf8Bytes s = utf8Encode s.data :=
    fun s => percentDecode_encode s.data
  refine ⟨hmain, fun env text => ?_⟩
  simp [hashToUint32, hmain text]

/-- Claim C10: on a functioning store, `assignFairBucket` returns any
non-empty stored string verbatim (even outside {"A","B"}) without validation
or store writes, and treats an empty stored string as unassigned, computing
and persisting a fresh bucket. -/
theorem C10_assign_verbatim_and_empty :
    (∀ (st : St) (v : String) (i : IdEnv) (h : HashEnv),
        st.bucket = some v → v ≠ "" → assignFairBucket i h false st = (v, st)) ∧
    (∀ (st : St) (i : IdEnv) (h : HashEnv),
        st.bucket = some "" →
        assignFairBucket i h false st
          = (bucketOf (hashToUint32 h (buildHashInput i)),
             { bucket := some (bucketOf (hashToUint32 h (buildHashInput i))),
               manual := none })) := by
  constructor
  · intro st v i h hb hv
    exact assign_existing i h st v hb hv
  · intro st i h hb
    exact assign_fresh_state i h st (Or.inr hb)

/-- Witness for C10 on a store holding the out-of-range value "C". -/
theorem C10_witness :
    assignFairBucket ⟨some "9.9.9.9", "tok", some "agent"⟩
        ⟨false, fun _ => none, false, false, none, 0⟩ false ⟨some "C", none⟩
      = ("C", ⟨some "C", none⟩) :=
  C10_assign_verbatim_and_empty.1 ⟨some "C", none⟩ "C" _ _ rfl (by decide)

end Splitter
